import Mathlib

/-!
Verification of the RabbitMQ python example client
(`RabbitMQ/examples/python/basic_consumer.py`, `basic_producer.py`,
`topic_producer.py`).

The embedding models the repository's delivery/acknowledgment/retry logic.
Python byte strings are `List Nat` of byte values, decoded text is a
`List Nat` of Unicode code points.  The Python standard-library calls the
code makes (`bytes.decode('utf-8')`, `json.loads`, `dict.get`,
`str.lower`, `str.capitalize`) are embedded by executable Lean functions
following CPython's behavior.  The module-level logging helpers of
`logger.py` (`info`, `warning`, `error`, `log_message_received`, ...)
only call the underlying `logging` logger and are modelled as
non-raising no-ops — with one exception that is embedded explicitly:
`log_message_failed` (logger.py line 107) takes a parameter named
`error` that shadows the module-level `error` function, and its body
calls that parameter; its only caller passes the caught exception
instance, so the call raises `TypeError` (an `Exception` instance is
not callable).  Broker channel operations (`basic_ack`, `basic_nack`,
`basic_publish`) are modelled as emitted events so that theorems can
speak about how many acknowledgment or publish calls a code path
issues, and an exception escaping a message callback is modelled as an
explicit propagated-exception component.
-/

namespace RabbitClient

/-- Helper: the code points of a Lean string literal, used to write
byte/text constants readably (all constants in this development are
ASCII, where bytes and code points coincide). -/
def strOf (s : String) : List Nat := s.toList.map Char.toNat

/-! ## UTF-8 decoding (CPython `bytes.decode('utf-8')`, strict mode)

Strict UTF-8: rejects invalid start bytes, truncated sequences, overlong
encodings, surrogate code points and code points above U+10FFFF, exactly
as CPython's strict `str` decoder does. -/

/-- Is `b` a UTF-8 continuation byte (`0x80..0xBF`)? -/
def isCont (b : Nat) : Bool := 128 ≤ b && b < 192

/-- Fueled UTF-8 decoder; `fuel ≥ length` makes it total on the list. -/
def utf8DecodeAux : Nat → List Nat → Option (List Nat)
  | _, [] => some []
  | 0, _ :: _ => none
  | fuel + 1, b :: bs =>
    if b < 128 then
      (utf8DecodeAux fuel bs).map (b :: ·)
    else if b < 194 then
      none
    else if b < 224 then
      match bs with
      | b1 :: bs1 =>
        if isCont b1 then
          (utf8DecodeAux fuel bs1).map (((b - 192) * 64 + (b1 - 128)) :: ·)
        else none
      | [] => none
    else if b < 240 then
      match bs with
      | b1 :: b2 :: bs2 =>
        if isCont b1 && isCont b2
            && (b ≠ 224 || 160 ≤ b1)          -- no overlong 3-byte forms
            && (b ≠ 237 || b1 < 160) then     -- no surrogates U+D800..U+DFFF
          (utf8DecodeAux fuel bs2).map
            (((b - 224) * 4096 + (b1 - 128) * 64 + (b2 - 128)) :: ·)
        else none
      | _ => none
    else if b < 245 then
      match bs with
      | b1 :: b2 :: b3 :: bs3 =>
        if isCont b1 && isCont b2 && isCont b3
            && (b ≠ 240 || 144 ≤ b1)          -- no overlong 4-byte forms
            && (b ≠ 244 || b1 < 144) then     -- nothing above U+10FFFF
          (utf8DecodeAux fuel bs3).map
            (((b - 240) * 262144 + (b1 - 128) * 4096 + (b2 - 128) * 64
              + (b3 - 128)) :: ·)
        else none
      | _ => none
    else none

/-- `body.decode('utf-8')`: `some` code points, or `none` for
`UnicodeDecodeError`. -/
def utf8Decode (body : List Nat) : Option (List Nat) :=
  utf8DecodeAux body.length body

example : utf8Decode (strOf "abc") = some (strOf "abc") := by decide
example : utf8Decode [255] = none := by decide
example : utf8Decode [0xC3, 0xA9] = some [0xE9] := by decide
example : utf8Decode [0xC0, 0x80] = none := by decide
example : utf8Decode [0xED, 0xA0, 0x80] = none := by decide
example : utf8Decode [0xF0, 0x9F, 0x98, 0x80] = some [0x1F600] := by decide

/-! ## JSON values and `json.loads`

`JVal` is the image of CPython's `json.loads`: JSON `null` becomes Python
`None` (`JVal.null`), objects become `dict`s (modelled as association
lists where a later binding for the same key overrides an earlier one,
as a Python dict literal built left-to-right does), and numbers keep
their raw numeral text (no claim depends on numeric values, only on the
parse succeeding and on string comparisons). -/

inductive JVal : Type where
  | null : JVal
  | boolean : Bool → JVal
  | num : List Nat → JVal
  | str : List Nat → JVal
  | arr : List JVal → JVal
  | obj : List (List Nat × JVal) → JVal

/-- JSON whitespace skip (space, tab, LF, CR — CPython's `_w` regex). -/
def skipWs : List Nat → List Nat
  | [] => []
  | c :: cs => if c = 32 || c = 9 || c = 10 || c = 13 then skipWs cs else c :: cs

/-- Value of a hexadecimal digit code point. -/
def hexVal (c : Nat) : Option Nat :=
  if 48 ≤ c && c ≤ 57 then some (c - 48)
  else if 65 ≤ c && c ≤ 70 then some (c - 55)
  else if 97 ≤ c && c ≤ 102 then some (c - 87)
  else none

/-- Read exactly four hex digits (the `XXXX` of a `\uXXXX` escape). -/
def parse4Hex : List Nat → Option (Nat × List Nat)
  | c1 :: c2 :: c3 :: c4 :: rest =>
    match hexVal c1, hexVal c2, hexVal c3, hexVal c4 with
    | some h1, some h2, some h3, some h4 =>
      some (h1 * 4096 + h2 * 256 + h3 * 16 + h4, rest)
    | _, _, _, _ => none
  | _ => none

/-- Strict JSON string body scanner, starting after the opening quote.
Handles the escapes `\" \\ \/ \b \f \n \r \t \uXXXX`, combines UTF-16
surrogate pairs written as two `\u` escapes (and keeps a lone surrogate
as-is, like CPython's json scanner), and rejects unescaped control
characters below U+0020. -/
def parseStrAux : Nat → List Nat → Option (List Nat × List Nat)
  | 0, _ => none
  | _ + 1, [] => none
  | fuel + 1, c :: cs =>
    if c = 34 then some ([], cs)
    else if c = 92 then
      match cs with
      | [] => none
      | e :: cs2 =>
        if e = 34 || e = 92 || e = 47 then
          (parseStrAux fuel cs2).map (fun r => (e :: r.1, r.2))
        else if e = 98 then (parseStrAux fuel cs2).map (fun r => (8 :: r.1, r.2))
        else if e = 102 then (parseStrAux fuel cs2).map (fun r => (12 :: r.1, r.2))
        else if e = 110 then (parseStrAux fuel cs2).map (fun r => (10 :: r.1, r.2))
        else if e = 114 then (parseStrAux fuel cs2).map (fun r => (13 :: r.1, r.2))
        else if e = 116 then (parseStrAux fuel cs2).map (fun r => (9 :: r.1, r.2))
        else if e = 117 then
          match parse4Hex cs2 with
          | none => none
          | some (u, cs3) =>
            if 55296 ≤ u && u < 56320 then
              match cs3 with
              | 92 :: 117 :: cs4 =>
                match parse4Hex cs4 with
                | some (u2, cs5) =>
                  if 56320 ≤ u2 && u2 < 57344 then
                    (parseStrAux fuel cs5).map (fun r =>
                      ((65536 + (u - 55296) * 1024 + (u2 - 56320)) :: r.1, r.2))
                  else (parseStrAux fuel cs3).map (fun r => (u :: r.1, r.2))
                | none => (parseStrAux fuel cs3).map (fun r => (u :: r.1, r.2))
              | _ => (parseStrAux fuel cs3).map (fun r => (u :: r.1, r.2))
            else (parseStrAux fuel cs3).map (fun r => (u :: r.1, r.2))
        else none
    else if c < 32 then none
    else (parseStrAux fuel cs).map (fun r => (c :: r.1, r.2))

/-- If `lit` is a leading segment of `s`, return the rest. -/
def dropLit : List Nat → List Nat → Option (List Nat)
  | [], s => some s
  | _ :: _, [] => none
  | l :: ls, c :: cs => if l = c then dropLit ls cs else none

/-- Is `c` an ASCII decimal digit? -/
def isDigit (c : Nat) : Bool := 48 ≤ c && c ≤ 57

/-- JSON number token (CPython's NUMBER_RE: `-?(0|[1-9]\d*)(\.\d+)?([eE][-+]?\d+)?`),
plus the `Infinity` / `-Infinity` constants that `json.loads` accepts by
default.  Returns the raw consumed text. -/
def parseNum (s : List Nat) : Option (List Nat × List Nat) :=
  let (sgn, s1) := match s with
    | 45 :: t => ([45], t)
    | _ => (([] : List Nat), s)
  match dropLit (strOf "Infinity") s1 with
  | some rest => some (sgn ++ strOf "Infinity", rest)
  | none =>
    let intRes : Option (List Nat × List Nat) :=
      match s1 with
      | 48 :: t => some ([48], t)
      | c :: t =>
        if 49 ≤ c && c ≤ 57 then
          some (c :: t.takeWhile isDigit, t.dropWhile isDigit)
        else none
      | [] => none
    match intRes with
    | none => none
    | some (ip, s2) =>
      let (fr, s3) : List Nat × List Nat :=
        match s2 with
        | 46 :: t =>
          if (t.takeWhile isDigit) = [] then ([], s2)
          else (46 :: t.takeWhile isDigit, t.dropWhile isDigit)
        | _ => ([], s2)
      let (ex, s4) : List Nat × List Nat :=
        match s3 with
        | e :: t =>
          if e = 101 || e = 69 then
            let (esgn, t2) : List Nat × List Nat :=
              match t with
              | 43 :: t3 => ([43], t3)
              | 45 :: t3 => ([45], t3)
              | _ => ([], t)
            if (t2.takeWhile isDigit) = [] then ([], s3)
            else (e :: esgn ++ t2.takeWhile isDigit, t2.dropWhile isDigit)
          else ([], s3)
        | [] => ([], s3)
      some (sgn ++ ip ++ fr ++ ex, s4)

mutual

/-- One JSON value starting at `s` (leading whitespace allowed),
returning the value and the unconsumed rest. -/
def parseVal : Nat → List Nat → Option (JVal × List Nat)
  | 0, _ => none
  | fuel + 1, s =>
    match skipWs s with
    | [] => none
    | c :: cs =>
      if c = 34 then
        (parseStrAux (cs.length + 1) cs).map (fun r => (JVal.str r.1, r.2))
      else if c = 123 then
        match skipWs cs with
        | 125 :: rest => some (JVal.obj [], rest)
        | s2 => (parseObjItems fuel s2).map (fun r => (JVal.obj r.1, r.2))
      else if c = 91 then
        match skipWs cs with
        | 93 :: rest => some (JVal.arr [], rest)
        | s2 => (parseArrItems fuel s2).map (fun r => (JVal.arr r.1, r.2))
      else if c = 116 then
        (dropLit (strOf "rue") cs).map (fun rest => (JVal.boolean true, rest))
      else if c = 102 then
        (dropLit (strOf "alse") cs).map (fun rest => (JVal.boolean false, rest))
      else if c = 110 then
        (dropLit (strOf "ull") cs).map (fun rest => (JVal.null, rest))
      else if c = 78 then
        (dropLit (strOf "aN") cs).map (fun rest => (JVal.num (strOf "NaN"), rest))
      else
        (parseNum (c :: cs)).map (fun r => (JVal.num r.1, r.2))

/-- Array items after `[` (at least one item present). -/
def parseArrItems : Nat → List Nat → Option (List JVal × List Nat)
  | 0, _ => none
  | fuel + 1, s =>
    match parseVal fuel s with
    | none => none
    | some (v, rest) =>
      match skipWs rest with
      | 44 :: rest2 =>
        (parseArrItems fuel rest2).map (fun r => (v :: r.1, r.2))
      | 93 :: rest2 => some ([v], rest2)
      | _ => none

/-- Object members after `{` (at least one member present). -/
def parseObjItems : Nat → List Nat → Option (List (List Nat × JVal) × List Nat)
  | 0, _ => none
  | fuel + 1, s =>
    match s with
    | 34 :: cs =>
      match parseStrAux (cs.length + 1) cs with
      | none => none
      | some (key, rest) =>
        match skipWs rest with
        | 58 :: rest2 =>
          match parseVal fuel rest2 with
          | none => none
          | some (v, rest3) =>
            match skipWs rest3 with
            | 44 :: rest4 =>
              match skipWs rest4 with
              | s2 => (parseObjItems fuel s2).map (fun r => ((key, v) :: r.1, r.2))
            | 125 :: rest4 => some ([(key, v)], rest4)
            | _ => none
        | _ => none
    | _ => none

end

/-- `json.loads` on decoded text: `some` value, or `none` for
`json.JSONDecodeError` (also raised when data remains after the value). -/
def jsonParse (text : List Nat) : Option JVal :=
  match parseVal (text.length + 1) text with
  | some (v, rest) => if skipWs rest = [] then some v else none
  | none => none

example : jsonParse (strOf "\x7b\"type\":\"greeting\"\x7d")
    = some (JVal.obj [(strOf "type", JVal.str (strOf "greeting"))]) := rfl
example : jsonParse (strOf "\x7b") = none := rfl
example : jsonParse (strOf "") = none := rfl
example : jsonParse (strOf "  null ") = some JVal.null := rfl
example : jsonParse (strOf "[1, 2.5e3, true]")
    = some (JVal.arr [JVal.num (strOf "1"), JVal.num (strOf "2.5e3"),
        JVal.boolean true]) := rfl
example : jsonParse (strOf "\x7b\"a\":1,\"a\":2\x7d")
    = some (JVal.obj [(strOf "a", JVal.num (strOf "1")),
        (strOf "a", JVal.num (strOf "2"))]) := rfl
example : jsonParse (strOf "01") = none := rfl
example : jsonParse (strOf "\"a\\u00e9b\"")
    = some (JVal.str [97, 233, 98]) := rfl

/-! ## Python object operations used by the consumer -/

/-- The exception classes the embedded code paths can raise.
`jsonDecode` stands for `json.JSONDecodeError`, `unicodeDecode` for
`UnicodeDecodeError`; the others are the exceptions the processing code
can raise (`AttributeError` from calling a `str` method or `.get` on a
non-`str`/non-`dict` value, `TypeError` from using an unhashable dict
key, and the `Exception("Simulated backup failure")`). -/
inductive PyErr : Type where
  | jsonDecode : PyErr
  | unicodeDecode : PyErr
  | attributeError : PyErr
  | typeError : PyErr
  | simulatedBackupFailure : PyErr
  | runtimeError : PyErr
deriving DecidableEq

/-- `dict` lookup on the association list produced by `json.loads`:
the LAST binding of a repeated key wins, as in a Python dict literal. -/
def dictFind (kvs : List (List Nat × JVal)) (k : List Nat) : Option JVal :=
  match kvs with
  | [] => none
  | (k0, v0) :: rest =>
    match dictFind rest k with
    | some v => some v
    | none => if k0 = k then some v0 else none

/-- Python `x.get(key, default)`: raises `AttributeError` when `x` is not
a `dict`, otherwise total. -/
def pyGet (x : JVal) (key : List Nat) (dflt : JVal) : Except PyErr JVal :=
  match x with
  | JVal.obj kvs =>
    match dictFind kvs key with
    | some v => Except.ok v
    | none => Except.ok dflt
  | _ => Except.error PyErr.attributeError

/-- Python `x.lower()`: only `str` has the method (`AttributeError`
otherwise).  The case mapping is modelled on ASCII, the only range the
`'backup'` membership test in the source can be decided by. -/
def pyLower (x : JVal) : Except PyErr (List Nat) :=
  match x with
  | JVal.str s => Except.ok (s.map (fun c => if 65 ≤ c && c ≤ 90 then c + 32 else c))
  | _ => Except.error PyErr.attributeError

/-- Python `x.capitalize()` (the consumer only interpolates the result
into a log line, so the embedding only tracks whether the call raises:
`AttributeError` unless `x` is a `str`). -/
def pyCapitalize (x : JVal) : Except PyErr Unit :=
  match x with
  | JVal.str _ => Except.ok ()
  | _ => Except.error PyErr.attributeError

/-- Using `x` as a dict key (`{...}.get(message_type, 1.0)`): raises
`TypeError` when `x` is unhashable (a `list` or `dict`). -/
def pyHashable (x : JVal) : Except PyErr Unit :=
  match x with
  | JVal.arr _ => Except.error PyErr.typeError
  | JVal.obj _ => Except.error PyErr.typeError
  | _ => Except.ok ()

/-- Python `x == s` for a string literal `s`: true exactly when `x` is
that `str` (values of different types are never equal). -/
def jvalEqStr (x : JVal) (s : List Nat) : Bool :=
  match x with
  | JVal.str t => t = s
  | _ => false

/-- Does `needle` occur as a contiguous run of `hay` (Python `in` on
strings)? -/
def litAt : List Nat → List Nat → Bool
  | [], _ => true
  | _ :: _, [] => false
  | n :: ns, h :: hs => n = h && litAt ns hs

/-- Python `needle in hay` for strings. -/
def subOccurs (needle hay : List Nat) : Bool :=
  match hay with
  | [] => litAt needle []
  | _ :: hs => litAt needle hay || subOccurs needle hs

example : subOccurs (strOf "backup") (strOf "run daily backup now") = true := by decide
example : subOccurs (strOf "backup") (strOf "back up") = false := by decide

/-! ## Consumer: `BasicConsumer.process_message` and `handle_message`
(`basic_consumer.py`) -/

/-- Delivery metadata handed to the `on_message_callback`
(`method.delivery_tag`, `method.redelivered`). -/
structure DeliveryMethod : Type where
  deliveryTag : Nat
  redelivered : Bool
deriving DecidableEq

/-- An acknowledgment call issued on the channel:
`basic_ack(delivery_tag)` or `basic_nack(delivery_tag, requeue)`. -/
inductive ChannelAction : Type where
  | ack : Nat → ChannelAction
  | nack : Nat → Bool → ChannelAction
deriving DecidableEq

/-- The delivery tag an acknowledgment call refers to. -/
def ChannelAction.tag : ChannelAction → Nat
  | ChannelAction.ack t => t
  | ChannelAction.nack t _ => t

/-- The spec's `AckOutcome` enum. -/
inductive AckOutcome : Type where
  | ack : AckOutcome
  | nackRequeue : AckOutcome
  | nackDiscard : AckOutcome
deriving DecidableEq

/-- The outcome an acknowledgment call encodes. -/
def ChannelAction.outcome : ChannelAction → AckOutcome
  | ChannelAction.ack _ => AckOutcome.ack
  | ChannelAction.nack _ true => AckOutcome.nackRequeue
  | ChannelAction.nack _ false => AckOutcome.nackDiscard

/-- `BasicConsumer.process_message(message_data)`, lines 134-164 of
`basic_consumer.py`.  `messageCount` is `self.message_count` as already
incremented by `handle_message` for this delivery.  Step by step:
`message_type = message_data.get('type', 'unknown')` (raises
`AttributeError` on a non-dict); the processing-time dict lookup
`{...}.get(message_type, 1.0)` (raises `TypeError` on an unhashable
`message_type`); `time.sleep` and the log lines are no-ops; then
`if message_type == 'system' and 'backup' in
message_data.get('message', '').lower():` (Python `and` short-circuits,
so `.lower()` — which raises `AttributeError` on a non-str — only runs
for `'system'` messages) with the simulated failure raised when
`self.message_count % 5 == 0`; finally the success log line calls
`message_type.capitalize()`, raising `AttributeError` on a non-str. -/
def processMessage (messageCount : Nat) (data : JVal) : Except PyErr Unit :=
  match pyGet data (strOf "type") (JVal.str (strOf "unknown")) with
  | Except.error e => Except.error e
  | Except.ok mtype =>
    match pyHashable mtype with
    | Except.error e => Except.error e
    | Except.ok _ =>
      let guarded : Except PyErr Unit :=
        if jvalEqStr mtype (strOf "system") then
          match pyGet data (strOf "message") (JVal.str []) with
          | Except.error e => Except.error e
          | Except.ok msg =>
            match pyLower msg with
            | Except.error e => Except.error e
            | Except.ok low =>
              if subOccurs (strOf "backup") low then
                if messageCount % 5 = 0 then
                  Except.error PyErr.simulatedBackupFailure
                else Except.ok ()
              else Except.ok ()
        else Except.ok ()
      match guarded with
      | Except.error e => Except.error e
      | Except.ok _ => pyCapitalize mtype

/-- The body of `handle_message`'s `try` block after a successful
`json.loads`, up to and including `self.process_message(message_data)`:
the received-message log line evaluates `message_data.get('type')`
(line 99, raising `AttributeError` on a non-dict) before
`process_message` runs. -/
def processingPhase (messageCount : Nat) (data : JVal) : Except PyErr Unit :=
  match pyGet data (strOf "type") JVal.null with
  | Except.error e => Except.error e
  | Except.ok _ => processMessage messageCount data

/-- `log_message_failed(message_id, error)` from `logger.py` lines
107-112: the parameter `error` shadows the module-level `error` logging
function, and the body calls `error(f"Message processing failed", ...)`
— i.e. it calls whatever was passed.  Its only caller,
`basic_consumer.py` line 125, passes the caught exception instance `e`,
and calling an `Exception` instance raises
`TypeError: object is not callable`, whatever the passed exception
was. -/
def logMessageFailed (e : PyErr) : Except PyErr Unit :=
  match e with
  | _ => Except.error PyErr.typeError

/-- `BasicConsumer.handle_message(channel, method, properties, body)`,
lines 85-132 of `basic_consumer.py`.  Takes `self.message_count` before
the call; returns the list of acknowledgment calls issued on the
channel, the updated `self.message_count`, and the exception (if any)
that propagates out of the callback.  The dispatch mirrors the source's
exception handling: `json.loads(body.decode('utf-8'))` raises
`UnicodeDecodeError` on invalid UTF-8 — caught only by the generic
`except Exception` branch, NOT by `except json.JSONDecodeError` — and
`json.JSONDecodeError` on undecodable text, caught by the branch that
nacks without requeue (line 121); any exception from the processing
phase lands in the generic branch (lines 123-132), which logs via the
module-level `error` function (fine) and then calls
`log_message_failed(message_id, e)` (line 125) — which raises
`TypeError` because of the shadowed parameter, so the TypeError
propagates out of the handler (an exception raised inside an `except`
block is not caught by the same `try`) and the redelivered-dependent
`basic_nack` of lines 128-132 is never reached. -/
def handleMessage (messageCount : Nat) (method : DeliveryMethod)
    (body : List Nat) : List ChannelAction × Nat × Option PyErr :=
  let count := messageCount + 1
  let genericExcept : PyErr → List ChannelAction × Nat × Option PyErr :=
    fun e =>
      match logMessageFailed e with
      | Except.error t => ([], count, some t)
      | Except.ok _ =>
        -- lines 128-132, unreachable because log_message_failed raises
        if method.redelivered then
          ([ChannelAction.nack method.deliveryTag false], count, none)
        else ([ChannelAction.nack method.deliveryTag true], count, none)
  match utf8Decode body with
  | none => genericExcept PyErr.unicodeDecode
  | some text =>
    match jsonParse text with
    | none => ([ChannelAction.nack method.deliveryTag false], count, none)
    | some data =>
      match processingPhase count data with
      | Except.ok _ => ([ChannelAction.ack method.deliveryTag], count, none)
      | Except.error e => genericExcept e

/-- One delivery as the broker presents it to the callback. -/
structure Delivery : Type where
  method : DeliveryMethod
  body : List Nat

/-- Folding `handle_message` over a sequence of deliveries, collecting
every acknowledgment call and threading `self.message_count`.  When a
callback lets an exception propagate, `start_consuming` aborts: no
further delivery is handled and the exception is reported. -/
def consumeAll (messageCount : Nat) :
    List Delivery → List ChannelAction × Nat × Option PyErr
  | [] => ([], messageCount, none)
  | d :: ds =>
    let r := handleMessage messageCount d.method d.body
    match r.2.2 with
    | some e => (r.1, r.2.1, some e)
    | none =>
      let rest := consumeAll r.2.1 ds
      (r.1 ++ rest.1, rest.2)

/-- `BasicConsumer.get_stats`: the `'messages_processed'` entry is
`self.message_count` (lines 166-172). -/
def getStatsMessagesProcessed (messageCount : Nat) : Nat := messageCount

/-- A well-formed greeting payload (the producer's first sample message,
reduced to the fields the consumer inspects). -/
def greetingBody : List Nat := strOf "\x7b\"type\":\"greeting\"\x7d"

/-- A well-formed system-backup payload (the producer's fifth sample
message, reduced to the fields the consumer inspects). -/
def backupBody : List Nat :=
  strOf "\x7b\"type\":\"system\",\"message\":\"Run daily backup\"\x7d"

example : handleMessage 0 ⟨1, false⟩ greetingBody
    = ([ChannelAction.ack 1], 1, none) := by decide
example : handleMessage 0 ⟨1, false⟩ [255]
    = ([], 1, some PyErr.typeError) := by decide
example : handleMessage 0 ⟨1, true⟩ [255]
    = ([], 1, some PyErr.typeError) := by decide
example : handleMessage 0 ⟨1, false⟩ (strOf "\x7b")
    = ([ChannelAction.nack 1 false], 1, none) := by decide
example : handleMessage 0 ⟨1, false⟩ backupBody
    = ([ChannelAction.ack 1], 1, none) := by decide
example : handleMessage 4 ⟨5, false⟩ backupBody
    = ([], 1 + 4, some PyErr.typeError) := by decide
example : handleMessage 4 ⟨5, true⟩ backupBody
    = ([], 1 + 4, some PyErr.typeError) := by decide
example : handleMessage 0 ⟨1, false⟩ (strOf "[1, 2]")
    = ([], 1, some PyErr.typeError) := by decide

/-! ## Producers: `BasicProducer.send_message` (`basic_producer.py`) and
`TopicProducer.send_message` (`topic_producer.py`)

Both build `pika.BasicProperties(delivery_mode=2,
timestamp=int(time.time()), message_id=message_id or f"...-{int(time.time())}-{hash(message_body) % 1000}")`
and issue exactly one `basic_publish`; on any exception they log and
re-raise (`raise` with no argument).  `int(time.time())` is an input
`now`; `hash(message_body)` is runtime-dependent (PYTHONHASHSEED), so it
is an input `bodyHash`. -/

/-- The wire properties `pika.BasicProperties(...)` the producers set. -/
structure BasicProperties : Type where
  deliveryMode : Nat
  timestamp : Nat
  messageId : List Nat
deriving DecidableEq

/-- Decimal digits of `n` as code points (Python `f"{n}"` for a
non-negative int). -/
def natDecimalAux : Nat → Nat → List Nat
  | 0, _ => []
  | fuel + 1, n =>
    if n < 10 then [48 + n]
    else natDecimalAux fuel (n / 10) ++ [48 + n % 10]

/-- Decimal rendering of a natural number. -/
def natDecimal (n : Nat) : List Nat := natDecimalAux (n + 1) n

example : natDecimal 0 = strOf "0" := by decide
example : natDecimal 1759 = strOf "1759" := by decide

/-- The generated message id
`f"{prefix}-{int(time.time())}-{hash(message_body) % 1000}"` with
`prefix` `"msg"` for the basic producer and `"topic"` for the topic
producer. -/
def generatedId (pre : List Nat) (now bodyHash : Nat) : List Nat :=
  pre ++ [45] ++ natDecimal now ++ [45] ++ natDecimal (bodyHash % 1000)

/-- Python `message_id or generated`: the caller-supplied id is used
only when it is truthy, i.e. present and non-empty. -/
def pyOrId (callerId : Option (List Nat)) (generated : List Nat) : List Nat :=
  match callerId with
  | some s => if s = [] then generated else s
  | none => generated

/-- What the underlying `channel.basic_publish` call reports back
(`ok`, or a raised `pika` exception when the broker is unreachable or
rejected the publish). -/
inductive PublishOutcome : Type where
  | ok : PublishOutcome
  | unreachable : PublishOutcome
  | rejected : PublishOutcome
deriving DecidableEq

/-- One `basic_publish` call as issued on the channel. -/
structure PublishEvent : Type where
  exchange : List Nat
  routingKey : List Nat
  props : BasicProperties
deriving DecidableEq

/-- Result of a `send_message` call: the publish calls issued on the
channel (in order) and either normal return or the exception propagated
to the caller. -/
structure SendResult : Type where
  events : List PublishEvent
  result : Except PyErr Unit

/-- The error a failed broker publish surfaces as. -/
def publishErr : PublishOutcome → PyErr
  | PublishOutcome.ok => PyErr.runtimeError
  | PublishOutcome.unreachable => PyErr.attributeError
  | PublishOutcome.rejected => PyErr.typeError

/-- Core of both producers' `send_message`: guard
`if not self.channel: raise RuntimeError(...)`; build the properties;
issue one `basic_publish`; on a broker failure the `except Exception`
branch logs and bare-`raise`s the same exception.  No retry loop exists
anywhere in the function. -/
def sendMessageCore (exchange routingKey idPrefix : List Nat)
    (connected : Bool) (now bodyHash : Nat) (callerId : Option (List Nat))
    (broker : PublishOutcome) : SendResult :=
  if connected = false then
    { events := [], result := Except.error PyErr.runtimeError }
  else
    let props : BasicProperties :=
      { deliveryMode := 2
        timestamp := now
        messageId := pyOrId callerId (generatedId idPrefix now bodyHash) }
    let ev : PublishEvent :=
      { exchange := exchange, routingKey := routingKey, props := props }
    match broker with
    | PublishOutcome.ok => { events := [ev], result := Except.ok () }
    | o => { events := [ev], result := Except.error (publishErr o) }

/-- `BasicProducer.send_message` (lines 56-83): default exchange `''`,
routing key `self.queue_name = QUEUES['basic']['name']`, id prefix
`"msg"`. -/
def basicSendMessage (connected : Bool) (now bodyHash : Nat)
    (callerId : Option (List Nat)) (broker : PublishOutcome) : SendResult :=
  sendMessageCore [] (strOf "python_basic_queue") (strOf "msg")
    connected now bodyHash callerId broker

/-- `TopicProducer.send_message` (lines 58-88): exchange
`EXCHANGES['topic']['name']`, caller-supplied routing key, id prefix
`"topic"`. -/
def topicSendMessage (routingKey : List Nat) (connected : Bool)
    (now bodyHash : Nat) (callerId : Option (List Nat))
    (broker : PublishOutcome) : SendResult :=
  sendMessageCore (strOf "python_topic_exchange") routingKey (strOf "topic")
    connected now bodyHash callerId broker

/-! ## `stop()` / `close()` and the consume loop -/

/-- The connection-related attributes of a consumer or producer object:
whether `self.channel` and `self.connection` are set (not `None`) and
whether `self.connection.is_closed`. -/
structure ConnState : Type where
  channelSet : Bool
  connectionSet : Bool
  connectionClosed : Bool
deriving DecidableEq

/-- Whether each underlying pika teardown call raises when invoked
(broker/transport behavior, an input of the model). -/
structure TeardownOracle : Type where
  stopConsumingRaises : Bool
  channelCloseRaises : Bool
  connectionCloseRaises : Bool
deriving DecidableEq

/-- Body of `BasicConsumer.close` (lines 180-189), before the
`except`: `if self.channel: self.channel.stop_consuming()`, then
`if self.connection and not self.connection.is_closed:
self.connection.close()`.  Returns the state reached and the exception
in flight, if any. -/
def consumerCloseBody (s : ConnState) (o : TeardownOracle) :
    ConnState × Option PyErr :=
  if s.channelSet && o.stopConsumingRaises then (s, some PyErr.runtimeError)
  else if s.connectionSet && !s.connectionClosed then
    if o.connectionCloseRaises then (s, some PyErr.runtimeError)
    else ({ s with connectionClosed := true }, none)
  else (s, none)

/-- `BasicConsumer.close`: the whole body runs inside
`try: ... except Exception as e: error(...)`, so any exception the body
raises (all the pika teardown calls raise `Exception` subclasses) is
caught and only logged.  The second component is the exception
propagated to the caller. -/
def consumerClose (s : ConnState) (o : TeardownOracle) :
    ConnState × Option PyErr :=
  ((consumerCloseBody s o).1, none)

/-- Body of `BasicProducer.close` / `TopicProducer.close`
(identical code, lines 94-103 and 132-141): `if self.channel:
self.channel.close()`, then the same connection logic as the consumer. -/
def producerCloseBody (s : ConnState) (o : TeardownOracle) :
    ConnState × Option PyErr :=
  if s.channelSet && o.channelCloseRaises then (s, some PyErr.runtimeError)
  else if s.connectionSet && !s.connectionClosed then
    if o.connectionCloseRaises then (s, some PyErr.runtimeError)
    else ({ s with connectionClosed := true }, none)
  else (s, none)

/-- `BasicProducer.close` / `TopicProducer.close` with its blanket
`except Exception` that logs and swallows. -/
def producerClose (s : ConnState) (o : TeardownOracle) :
    ConnState × Option PyErr :=
  ((producerCloseBody s o).1, none)

/-- The consumer object's run-time state: connection attributes,
`self.running`, whether the blocking consume loop is delivering
(`start_consuming` active, not yet told to stop), and
`self.message_count`. -/
structure ConsumerRtState : Type where
  conn : ConnState
  running : Bool
  consuming : Bool
  messageCount : Nat
deriving DecidableEq

/-- `BasicConsumer.stop` (lines 174-178): `self.running = False`, and
`if self.channel: self.channel.stop_consuming()`.  It touches nothing
else — in particular it does not close the channel or the connection. -/
def consumerStop (s : ConsumerRtState) : ConsumerRtState :=
  { s with running := false
           consuming := if s.conn.channelSet then false else s.consuming }

/-- What reaches the blocking consume loop: a broker delivery, or a
stop request (`stop_consuming`, observed by pika's blocking connection
between message callbacks). -/
inductive ConsumerEvent : Type where
  | deliver : Delivery → ConsumerEvent
  | stopRequest : ConsumerEvent

/-- The blocking consume loop: each delivery received while consuming is
handed to `handle_message`, which runs to completion (the callback is
atomic in `BlockingConnection`); a stop request takes effect between
callbacks; an exception propagating out of a callback aborts
`start_consuming` (no later event is processed).  Returns all
acknowledgment calls issued, the final state, and the exception that
escaped the loop, if any. -/
def consumeRun (s : ConsumerRtState) :
    List ConsumerEvent → List ChannelAction × ConsumerRtState × Option PyErr
  | [] => ([], s, none)
  | ConsumerEvent.stopRequest :: es => consumeRun (consumerStop s) es
  | ConsumerEvent.deliver d :: es =>
    if s.consuming then
      let r := handleMessage s.messageCount d.method d.body
      match r.2.2 with
      | some e =>
        (r.1, { s with messageCount := r.2.1, consuming := false }, some e)
      | none =>
        let rest := consumeRun { s with messageCount := r.2.1 } es
        (r.1 ++ rest.1, rest.2)
    else consumeRun s es

/-- A consumer that has connected and entered `start_consuming`. -/
def connectedConsumingState : ConsumerRtState :=
  { conn := { channelSet := true, connectionSet := true, connectionClosed := false }
    running := true
    consuming := true
    messageCount := 0 }

/-! ## RoutingKeyMatcher (spec §4.2) -/

/-- Modelled from the spec: the repository's `RoutingKeyMatcher` (and the
`topic_consumer.py` that `topic_producer.py` refers to) is not present
under `src/`; a `TopicPattern` segment matcher is one of literal,
single-segment wildcard (`*`) and multi-segment wildcard (`#`), per
spec §3. -/
inductive PatSeg : Type where
  | lit : List Nat → PatSeg
  | star : PatSeg
  | hash : PatSeg
deriving DecidableEq

/-- Splitting a routing key on `'.'` (code point 46); the empty key
splits to one empty segment, as Python's `''.split('.')` does. -/
def splitOnDot : List Nat → List (List Nat)
  | [] => [[]]
  | c :: cs =>
    match splitOnDot cs with
    | [] => [[]]
    | seg :: rest =>
      if c = 46 then [] :: seg :: rest else (c :: seg) :: rest

example : splitOnDot (strOf "a.b.c") = [strOf "a", strOf "b", strOf "c"] := by decide
example : splitOnDot (strOf "") = [[]] := by decide
example : splitOnDot (strOf "a..b") = [strOf "a", [], strOf "b"] := by decide

/-- Modelled from the spec: `RoutingKeyMatcher`'s segment walk
(§4.2, code not under `src/`): "walk pattern segments and key segments
in lockstep; a literal segment matches iff equal; a single-segment
wildcard consumes exactly one key segment unconditionally; a
multi-segment wildcard consumes zero or more remaining key segments",
trying minimal consumption first and extending (backtracking),
"declared successful iff both pattern and key are fully consumed". -/
def segsMatchAux : Nat → List PatSeg → List (List Nat) → Bool
  | 0, _, _ => false
  | fuel + 1, pat, ks =>
    match pat, ks with
    | [], [] => true
    | [], _ :: _ => false
    | PatSeg.lit _ :: _, [] => false
    | PatSeg.lit s :: ps, k :: ks1 => s = k && segsMatchAux fuel ps ks1
    | PatSeg.star :: _, [] => false
    | PatSeg.star :: ps, _ :: ks1 => segsMatchAux fuel ps ks1
    | PatSeg.hash :: ps, [] => segsMatchAux fuel ps []
    | PatSeg.hash :: ps, k :: ks1 =>
      segsMatchAux fuel ps (k :: ks1) || segsMatchAux fuel (PatSeg.hash :: ps) ks1

/-- The segment walk of `segsMatchAux`, run with enough fuel: every
recursive step shortens the pattern or the key, so
`pattern.length + key.length + 1` steps always suffice. -/
def segsMatch (pat : List PatSeg) (ks : List (List Nat)) : Bool :=
  segsMatchAux (pat.length + ks.length + 1) pat ks

/-- Modelled from the spec: `RoutingKeyMatcher.matches(pattern, key)`
(§4.2, code not under `src/`): "split `key` on `.`" and run the
segment walk. -/
def rkMatches (pat : List PatSeg) (key : List Nat) : Bool :=
  segsMatch pat (splitOnDot key)

example : rkMatches [PatSeg.star, PatSeg.star] (strOf "a.b") = true := by decide
example : rkMatches [PatSeg.star, PatSeg.star] (strOf "a.b.c") = false := by decide
example : rkMatches [PatSeg.hash] (strOf "a.b.c") = true := by decide
example : rkMatches [PatSeg.lit (strOf "a"), PatSeg.hash] (strOf "a") = true := by decide
example : rkMatches [PatSeg.lit (strOf "a"), PatSeg.hash] (strOf "b.c") = false := by decide

/-- Is every segment of the pattern a literal (no wildcards)? -/
def litOnly : List PatSeg → Bool
  | [] => true
  | PatSeg.lit _ :: ps => litOnly ps
  | PatSeg.star :: _ => false
  | PatSeg.hash :: _ => false

/-- The literal contents of a pattern's segments. -/
def litSegs : List PatSeg → List (List Nat)
  | [] => []
  | PatSeg.lit s :: ps => s :: litSegs ps
  | PatSeg.star :: ps => litSegs ps
  | PatSeg.hash :: ps => litSegs ps

/-! ## The backup-failure predicate and a concrete consume run -/

/-- Does the decoded payload satisfy the source's simulated-failure
guard `message_type == 'system' and 'backup' in
message_data.get('message', '').lower()` (line 156), evaluated with the
same embedded operations `process_message` uses? -/
def isBackupSystemMsg (data : JVal) : Bool :=
  match pyGet data (strOf "type") (JVal.str (strOf "unknown")) with
  | Except.error _ => false
  | Except.ok mtype =>
    jvalEqStr mtype (strOf "system") &&
      match pyGet data (strOf "message") (JVal.str []) with
      | Except.error _ => false
      | Except.ok msg =>
        match pyLower msg with
        | Except.error _ => false
        | Except.ok low => subOccurs (strOf "backup") low

/-- Does a delivery carry a system-backup payload? -/
def isBackupDelivery (d : Delivery) : Bool :=
  match utf8Decode d.body with
  | none => false
  | some text =>
    match jsonParse text with
    | none => false
    | some data => isBackupSystemMsg data

/-- Five first-time deliveries: four greetings, then one system-backup
message — the backup message is the fifth delivery overall but only the
first backup message. -/
def c5Run : List Delivery :=
  [⟨⟨1, false⟩, greetingBody⟩, ⟨⟨2, false⟩, greetingBody⟩,
   ⟨⟨3, false⟩, greetingBody⟩, ⟨⟨4, false⟩, greetingBody⟩,
   ⟨⟨5, false⟩, backupBody⟩]

/-- The parse of `greetingBody`. -/
def greetingData : JVal := JVal.obj [(strOf "type", JVal.str (strOf "greeting"))]

/-- The parse of `backupBody`. -/
def backupData : JVal :=
  JVal.obj [(strOf "type", JVal.str (strOf "system")),
            (strOf "message", JVal.str (strOf "Run daily backup"))]

/-! ## Shared lemmas -/

/-- Every path of `handle_message` that does not let an exception
propagate (acked messages and JSON-parse failures) issues exactly one
acknowledgment call carrying the delivery's tag; the paths through the
generic `except Exception` handler crash in `log_message_failed` and
issue none. -/
theorem handleMessage_resolved_singleton (count : Nat)
    (method : DeliveryMethod) (body : List Nat)
    (h : (handleMessage count method body).2.2 = none) :
    ∃ a : ChannelAction,
      (handleMessage count method body).1 = [a]
        ∧ ChannelAction.tag a = method.deliveryTag := by
  unfold handleMessage at h ⊢
  rcases hu : utf8Decode body with _ | text
  · simp [hu, logMessageFailed] at h
  · rcases hj : jsonParse text with _ | data
    · exact ⟨ChannelAction.nack method.deliveryTag false, by simp [hu, hj], rfl⟩
    · cases hp : processingPhase (count + 1) data with
      | ok u =>
        exact ⟨ChannelAction.ack method.deliveryTag, by simp [hu, hj, hp], rfl⟩
      | error e => simp [hu, hj, hp, logMessageFailed] at h

/-- On the paths through the generic `except Exception` handler —
UTF-8 decode failures and processing failures — `handle_message` issues
no acknowledgment at all and a `TypeError` from `log_message_failed`
propagates out of the callback. -/
theorem handleMessage_generic_crash (count : Nat) (method : DeliveryMethod)
    (body : List Nat)
    (h : utf8Decode body = none ∨
      (∃ text data e, utf8Decode body = some text ∧
        jsonParse text = some data ∧
        processingPhase (count + 1) data = Except.error e)) :
    (handleMessage count method body).1 = [] ∧
      (handleMessage count method body).2.2 = some PyErr.typeError := by
  rcases h with hu | ⟨text, data, e, hu, hj, hp⟩
  · constructor <;> simp [handleMessage, hu, logMessageFailed]
  · constructor <;> simp [handleMessage, hu, hj, hp, logMessageFailed]

/-- `handle_message` increments `self.message_count` by one on every
path, including the crashing ones (line 87 runs before the `try`). -/
theorem handleMessage_count (count : Nat) (method : DeliveryMethod)
    (body : List Nat) : (handleMessage count method body).2.1 = count + 1 := by
  unfold handleMessage
  rcases hu : utf8Decode body with _ | text
  · simp [hu, logMessageFailed]
  · rcases hj : jsonParse text with _ | data
    · simp [hu, hj]
    · cases hp : processingPhase (count + 1) data <;>
        simp [hu, hj, hp, logMessageFailed]

/-! ## Claim theorems -/

/-- C1 counterexample: the byte sequence `[255]` is not a well-formed
structured payload (it does not even decode as UTF-8), yet
`handle_message` does NOT produce the outcome NackDiscard for it: the
`UnicodeDecodeError` from `body.decode('utf-8')` is not a
`json.JSONDecodeError`, so it lands in the generic `except Exception`
branch, which crashes in `log_message_failed` (the shadowed `error`
parameter) — zero acknowledgment calls are issued and a `TypeError`
propagates out of the callback. -/
theorem consumer_decode_failure_requeue_cex :
    utf8Decode [255] = none ∧
    handleMessage 0 ⟨1, false⟩ [255] = ([], 1, some PyErr.typeError) := by
  decide

/-- C1 (amended): for every delivery whose payload decodes as UTF-8 but
fails JSON parsing, `handle_message` produces exactly
`basic_nack(requeue=False)` (NackDiscard) and returns normally — such
decode failures are never requeued, for any message count and
redelivery flag.  A payload that fails UTF-8 decoding instead produces
no acknowledgment at all: its `UnicodeDecodeError` reaches the generic
`except Exception` handler, which raises `TypeError` inside
`log_message_failed` before any nack, and that exception propagates out
of the callback. -/
theorem consumer_json_decode_failure_discard :
    (∀ (count : Nat) (method : DeliveryMethod) (body text : List Nat),
      utf8Decode body = some text → jsonParse text = none →
      handleMessage count method body =
        ([ChannelAction.nack method.deliveryTag false], count + 1, none)) ∧
    (∀ (count : Nat) (method : DeliveryMethod) (body : List Nat),
      utf8Decode body = none →
      handleMessage count method body = ([], count + 1, some PyErr.typeError)) := by
  constructor
  · intro count method body text hu hj
    simp [handleMessage, hu, hj]
  · intro count method body hu
    simp [handleMessage, hu, logMessageFailed]

/-- C1 witness: the single byte `\x7b` (`'{'`) decodes as UTF-8 but is
not valid JSON, and is discarded without requeue; the single byte `255`
is not UTF-8 and yields no acknowledgment, only a propagated
`TypeError`. -/
theorem consumer_json_decode_failure_discard_witness :
    handleMessage 0 ⟨1, false⟩ (strOf "\x7b") =
      ([ChannelAction.nack 1 false], 1, none) ∧
    handleMessage 3 ⟨4, true⟩ [255] = ([], 4, some PyErr.typeError) :=
  ⟨consumer_json_decode_failure_discard.1 0 ⟨1, false⟩ (strOf "\x7b")
      (strOf "\x7b") rfl rfl,
   consumer_json_decode_failure_discard.2 3 ⟨4, true⟩ [255] rfl⟩

/-- C2 code-bug evaluation: the payload `"[1, 2]"` decodes successfully
(valid JSON), its processing raises (`message_data.get` on a list is an
`AttributeError`), and the delivery is a first delivery
(`redelivered = false`) — the claim (and the unreachable source lines
128-132) call for `basic_nack(requeue=True)`, but the code issues NO
acknowledgment: the `except Exception` handler raises `TypeError`
inside `log_message_failed` (logger.py line 107, the parameter `error`
shadows the logging function and the caught exception instance is
called) before the nack, and the `TypeError` propagates out of the
callback. -/
theorem consumer_processing_failure_no_nack_eval :
    (utf8Decode (strOf "[1, 2]")).isSome = true ∧
    (jsonParse (strOf "[1, 2]")).isSome = true ∧
    handleMessage 0 ⟨1, false⟩ (strOf "[1, 2]") =
      ([], 1, some PyErr.typeError) := by
  decide

/-- C3 code-bug evaluation: on the generic-exception path the source
issues ZERO acknowledgment calls for the delivery — refuting "never
zero" — because `log_message_failed` raises `TypeError` before
`basic_nack`; shown here on an invalid-UTF-8 payload and on a
processing failure (the system-backup message at total count 5), for
both values of the redelivered flag. -/
theorem consumer_zero_outcomes_eval :
    (handleMessage 0 ⟨1, false⟩ [255]).1 = [] ∧
    (handleMessage 0 ⟨1, true⟩ [255]).1 = [] ∧
    (handleMessage 4 ⟨5, false⟩ backupBody).1 = [] ∧
    (handleMessage 4 ⟨5, false⟩ backupBody).2.2 = some PyErr.typeError := by
  decide

/-- C10: `self.message_count` increases by exactly one on every delivery
regardless of outcome — the increment at line 87 runs before the `try`,
so it covers acks, nacks and even the crashing generic-exception paths
— and over any delivery sequence the consumer handles to completion
(none of whose callbacks lets an exception escape and abort the loop)
the final count equals the number of deliveries received, which is what
`get_stats` reports as `'messages_processed'`. -/
theorem consumer_count_every_delivery :
    (∀ count method body, (handleMessage count method body).2.1 = count + 1) ∧
    (∀ (ds : List Delivery) (count : Nat),
      (consumeAll count ds).2.2 = none →
      (consumeAll count ds).2.1 = count + ds.length) ∧
    (∀ ds : List Delivery,
      (consumeAll 0 ds).2.2 = none →
      getStatsMessagesProcessed (consumeAll 0 ds).2.1 = ds.length) := by
  have h2 : ∀ (ds : List Delivery) (count : Nat),
      (consumeAll count ds).2.2 = none →
      (consumeAll count ds).2.1 = count + ds.length := by
    intro ds
    induction ds with
    | nil => intro c _; simp [consumeAll]
    | cons d ds ih =>
      intro c hclean
      rcases he : (handleMessage c d.method d.body).2.2 with _ | e
      · have hcount := handleMessage_count c d.method d.body
        simp only [consumeAll, he] at hclean ⊢
        rw [hcount] at hclean ⊢
        simp only [List.length_cons]
        rw [ih (c + 1) hclean]
        omega
      · simp only [consumeAll, he] at hclean
        simp at hclean
  refine ⟨handleMessage_count, h2, fun ds hclean => ?_⟩
  simp [getStatsMessagesProcessed, h2 ds 0 hclean]

/-- C10 witness: a clean three-delivery run — an ack, an ack of a
redelivery, and a JSON-failure discard — counts three deliveries and
reports them in `get_stats`. -/
theorem consumer_count_every_delivery_witness :
    getStatsMessagesProcessed
      (consumeAll 0
        [⟨⟨1, false⟩, greetingBody⟩, ⟨⟨2, true⟩, greetingBody⟩,
         ⟨⟨3, false⟩, strOf "\x7b"⟩]).2.1 = 3 :=
  consumer_count_every_delivery.2.2
    [⟨⟨1, false⟩, greetingBody⟩, ⟨⟨2, true⟩, greetingBody⟩,
     ⟨⟨3, false⟩, strOf "\x7b"⟩] (by decide)

/-- C5 counterexample: in a run of five first-time deliveries — four
greetings followed by ONE system-backup message — the backup message is
only the first backup message received, yet `process_message` raises the
simulated failure on it, because `self.message_count`, which counts ALL
deliveries, has reached 5 (third conjunct); in the full run the four
greetings are acked and the backup delivery gets no acknowledgment at
all, since the simulated failure lands in the generic `except Exception`
handler which crashes in `log_message_failed` (second conjunct). -/
theorem consumer_backup_failure_counts_all_cex :
    (c5Run.filter isBackupDelivery).length = 1 ∧
    consumeAll 0 c5Run =
      ([ChannelAction.ack 1, ChannelAction.ack 2, ChannelAction.ack 3,
        ChannelAction.ack 4], 5, some PyErr.typeError) ∧
    processMessage 5 backupData = Except.error PyErr.simulatedBackupFailure :=
  ⟨by decide, by decide, rfl⟩

/-- C5 (amended): `process_message` raises the simulated backup failure
for a received `'system'` message whose text contains `'backup'` exactly
when the consumer's TOTAL message count — counting every delivery of any
type, not only backup messages — is a multiple of 5. -/
theorem consumer_backup_failure_total_count (count : Nat) (data : JVal)
    (h : isBackupSystemMsg data = true) :
    processMessage count data =
      (if count % 5 = 0 then Except.error PyErr.simulatedBackupFailure
       else Except.ok ()) := by
  unfold isBackupSystemMsg at h
  unfold processMessage
  rcases h1 : pyGet data (strOf "type") (JVal.str (strOf "unknown")) with e | mtype
  · simp [h1] at h
  · simp only [h1, Bool.and_eq_true] at h
    obtain ⟨hsys, hrest⟩ := h
    have hmt : mtype = JVal.str (strOf "system") := by
      cases mtype <;> simp [jvalEqStr] at hsys
      simp [hsys]
    subst hmt
    rcases h2 : pyGet data (strOf "message") (JVal.str []) with e | msg
    · simp [h2] at hrest
    · simp only [h2] at hrest
      rcases h3 : pyLower msg with e | low
      · simp [h3] at hrest
      · simp only [h3] at hrest
        simp [pyHashable, jvalEqStr, h2, h3, hrest, pyCapitalize]
        by_cases hc : count % 5 = 0 <;> simp [hc, pyCapitalize]

/-- C5 witness: a system-backup payload processed when the total message
count is 5 raises the simulated failure. -/
theorem consumer_backup_failure_total_count_witness :
    processMessage 5 backupData = Except.error PyErr.simulatedBackupFailure := by
  rw [consumer_backup_failure_total_count 5 backupData (by decide)]
  rfl

/-- Once the consume loop is no longer consuming, no delivery produces
any acknowledgment action, and stop requests keep it stopped. -/
theorem consumeRun_not_consuming (es : List ConsumerEvent) :
    ∀ s : ConsumerRtState, s.consuming = false → (consumeRun s es).1 = [] := by
  induction es with
  | nil => intro s _; rfl
  | cons e es ih =>
    intro s h
    cases e with
    | stopRequest =>
      apply ih
      cases hc : s.conn.channelSet <;> simp [consumerStop, hc, h]
    | deliver d => simp [consumeRun, h, ih s h]

/-- C4 counterexample: on a consumer that is connected and consuming,
`stop()` stops the consume loop but leaves the connection open —
`stop()` only sets `self.running = False` and calls
`channel.stop_consuming()`; closing the channel/connection is done by
the separate `close()` method, which `stop()` does not call. -/
theorem consumer_stop_leaves_connection_open_cex :
    connectedConsumingState.conn.connectionClosed = false ∧
    (consumerStop connectedConsumingState).consuming = false ∧
    (consumerStop connectedConsumingState).conn.connectionClosed = false := by
  decide

/-- C4 (amended): `stop()` (a) stops accepting new deliveries — after a
stop request the consume loop emits no further acknowledgment for any
later delivery; (b) a delivery already being processed when the stop
request arrives still reaches exactly one terminal outcome PROVIDED its
handling does not enter the generic `except Exception` handler (a
delivery whose handling does enter it crashes in `log_message_failed`
with no acknowledgment ever issued, so the unconditional claim fails);
and (c) `stop()` does not close the channel or connection — the
connection state is untouched; the separate `close()` is what closes
the connection. -/
theorem consumer_stop_behavior :
    (∀ (s : ConsumerRtState) (es : List ConsumerEvent),
      s.conn.channelSet = true →
      (consumeRun s (ConsumerEvent.stopRequest :: es)).1 = []) ∧
    (∀ (s : ConsumerRtState) (d : Delivery) (es : List ConsumerEvent),
      s.consuming = true → s.conn.channelSet = true →
      (handleMessage s.messageCount d.method d.body).2.2 = none →
      ∃ a : ChannelAction,
        (consumeRun s
          (ConsumerEvent.deliver d :: ConsumerEvent.stopRequest :: es)).1 = [a]) ∧
    (∀ s : ConsumerRtState, (consumerStop s).conn = s.conn) ∧
    (∀ (s : ConnState) (o : TeardownOracle),
      s.connectionSet = true → s.connectionClosed = false →
      o.stopConsumingRaises = false → o.connectionCloseRaises = false →
      (consumerClose s o).1.connectionClosed = true ∧
        (consumerClose s o).2 = none) := by
  have hstopped : ∀ (s : ConsumerRtState) (es : List ConsumerEvent),
      s.conn.channelSet = true →
      (consumeRun s (ConsumerEvent.stopRequest :: es)).1 = [] := by
    intro s es hc
    show (consumeRun (consumerStop s) es).1 = []
    exact consumeRun_not_consuming es _ (by simp [consumerStop, hc])
  refine ⟨hstopped, ?_, ?_, ?_⟩
  · intro s d es hcons hc hres
    obtain ⟨a, ha, -⟩ :=
      handleMessage_resolved_singleton s.messageCount d.method d.body hres
    refine ⟨a, ?_⟩
    simp only [consumeRun, hcons, if_pos, hres]
    rw [ha, consumeRun_not_consuming es _ (by simp [consumerStop, hc])]
    simp
  · intro s
    simp [consumerStop]
  · intro s o hset hopen hsr hcr
    constructor
    · simp [consumerClose, consumerCloseBody, hset, hopen, hsr, hcr]
    · rfl

/-- C4 witness: stopping before a delivery suppresses it; a delivery
whose handling completes (the greeting ack), followed by a stop, still
gets its single terminal outcome; `close()` on an open connection with
well-behaved teardown closes it. -/
theorem consumer_stop_behavior_witness :
    (consumeRun connectedConsumingState
      [ConsumerEvent.stopRequest,
       ConsumerEvent.deliver ⟨⟨1, false⟩, greetingBody⟩]).1 = [] ∧
    (∃ a : ChannelAction,
      (consumeRun connectedConsumingState
        [ConsumerEvent.deliver ⟨⟨1, false⟩, greetingBody⟩,
         ConsumerEvent.stopRequest]).1 = [a]) ∧
    (consumerClose ⟨true, true, false⟩
        ⟨false, false, false⟩).1.connectionClosed = true :=
  ⟨consumer_stop_behavior.1 connectedConsumingState
      [ConsumerEvent.deliver ⟨⟨1, false⟩, greetingBody⟩] rfl,
   consumer_stop_behavior.2.1 connectedConsumingState
      ⟨⟨1, false⟩, greetingBody⟩ [] rfl rfl (by decide),
   (consumer_stop_behavior.2.2.2 ⟨true, true, false⟩
      ⟨false, false, false⟩ rfl rfl rfl rfl).1⟩

/-- C6: with a connected channel, `send_message` issues exactly one
`basic_publish` (no internal retry, never silently dropped), and when
the underlying publish reports a failure, the exception is re-raised to
the caller (`except Exception: error(...); raise`). -/
theorem producer_publish_failure_surfaced (now bodyHash : Nat)
    (callerId : Option (List Nat)) (broker : PublishOutcome) :
    (basicSendMessage true now bodyHash callerId broker).events.length = 1 ∧
    (broker ≠ PublishOutcome.ok →
      (basicSendMessage true now bodyHash callerId broker).result =
        Except.error (publishErr broker)) := by
  cases broker with
  | ok => exact ⟨rfl, fun h => absurd rfl h⟩
  | unreachable => exact ⟨rfl, fun _ => rfl⟩
  | rejected => exact ⟨rfl, fun _ => rfl⟩

/-- C6 witness: an unreachable broker produces one publish attempt and a
re-raised error. -/
theorem producer_publish_failure_surfaced_witness :
    (basicSendMessage true 1700000000 42 none
        PublishOutcome.unreachable).events.length = 1 ∧
    (basicSendMessage true 1700000000 42 none
        PublishOutcome.unreachable).result =
      Except.error (publishErr PublishOutcome.unreachable) :=
  ⟨(producer_publish_failure_surfaced 1700000000 42 none
      PublishOutcome.unreachable).1,
   (producer_publish_failure_surfaced 1700000000 42 none
      PublishOutcome.unreachable).2 (by decide)⟩

/-- The generated fallback message ids are never empty. -/
theorem generatedId_ne_nil (pre : List Nat) (hp : pre ≠ []) (now h : Nat) :
    generatedId pre now h ≠ [] := by
  cases pre with
  | nil => exact absurd rfl hp
  | cons c cs => simp [generatedId]

/-- C7: every message either producer publishes carries
`delivery_mode = 2` (persistent), `timestamp` equal to the publish time
in integer seconds, and a non-empty `message_id` — the caller-supplied
id when a non-empty one is given, a generated one otherwise. -/
theorem producer_wire_properties (routingKey : List Nat) (now bodyHash : Nat)
    (callerId : Option (List Nat)) (broker : PublishOutcome) :
    ∀ ev : PublishEvent,
      (ev ∈ (basicSendMessage true now bodyHash callerId broker).events ∨
       ev ∈ (topicSendMessage routingKey true now bodyHash callerId
               broker).events) →
      ev.props.deliveryMode = 2 ∧ ev.props.timestamp = now ∧
        ev.props.messageId ≠ [] ∧
        (∀ s, callerId = some s → s ≠ [] → ev.props.messageId = s) := by
  have core : ∀ pre : List Nat, pre ≠ [] →
      pyOrId callerId (generatedId pre now bodyHash) ≠ [] ∧
        (∀ s, callerId = some s → s ≠ [] →
          pyOrId callerId (generatedId pre now bodyHash) = s) := by
    intro pre hpre
    cases callerId with
    | none => exact ⟨generatedId_ne_nil pre hpre now bodyHash, by simp [pyOrId]⟩
    | some s0 =>
      by_cases hs : s0 = []
      · refine ⟨?_, ?_⟩
        · simpa [pyOrId, hs] using generatedId_ne_nil pre hpre now bodyHash
        · intro s hsome hne
          rw [Option.some.injEq] at hsome
          exact absurd (hsome ▸ hs) hne
      · refine ⟨?_, ?_⟩
        · simp [pyOrId, hs]
        · intro s hsome _
          rw [Option.some.injEq] at hsome
          subst hsome
          simp [pyOrId, hs]
  intro ev hev
  have hbasic : (basicSendMessage true now bodyHash callerId broker).events =
      [{ exchange := []
         routingKey := strOf "python_basic_queue"
         props := { deliveryMode := 2, timestamp := now
                    messageId := pyOrId callerId
                      (generatedId (strOf "msg") now bodyHash) } }] := by
    cases broker <;> rfl
  have htopic : (topicSendMessage routingKey true now bodyHash callerId
      broker).events =
      [{ exchange := strOf "python_topic_exchange"
         routingKey := routingKey
         props := { deliveryMode := 2, timestamp := now
                    messageId := pyOrId callerId
                      (generatedId (strOf "topic") now bodyHash) } }] := by
    cases broker <;> rfl
  rcases hev with hin | hin
  · rw [hbasic] at hin
    rw [List.mem_singleton] at hin
    subst hin
    exact ⟨rfl, rfl, (core (strOf "msg") (by decide)).1,
      (core (strOf "msg") (by decide)).2⟩
  · rw [htopic] at hin
    rw [List.mem_singleton] at hin
    subst hin
    exact ⟨rfl, rfl, (core (strOf "topic") (by decide)).1,
      (core (strOf "topic") (by decide)).2⟩

/-- The single publish event of one concrete basic-producer send. -/
def basicPubEvent : PublishEvent :=
  { exchange := []
    routingKey := strOf "python_basic_queue"
    props := { deliveryMode := 2, timestamp := 1700000000
               messageId := generatedId (strOf "msg") 1700000000 42 } }

/-- C7 witness: the concrete publish event of a basic send at time
1700000000 has the required wire properties. -/
theorem producer_wire_properties_witness :
    basicPubEvent.props.deliveryMode = 2 ∧
    basicPubEvent.props.timestamp = 1700000000 ∧
    basicPubEvent.props.messageId ≠ [] := by
  obtain ⟨h1, h2, h3, -⟩ := producer_wire_properties [] 1700000000 42 none
    PublishOutcome.ok basicPubEvent (Or.inl (by decide))
  exact ⟨h1, h2, h3⟩

/-- The lockstep walk on a wildcard-free pattern succeeds exactly on the
equal segment list (given enough fuel). -/
theorem segsMatchAux_litOnly :
    ∀ (fuel : Nat) (ps : List PatSeg) (ks : List (List Nat)),
      litOnly ps = true → ps.length + ks.length < fuel →
      (segsMatchAux fuel ps ks = true ↔ litSegs ps = ks) := by
  intro fuel
  induction fuel with
  | zero => intro ps ks _ hf; exact absurd hf (Nat.not_lt_zero _)
  | succ n ih =>
    intro ps ks hl hf
    cases ps with
    | nil =>
      cases ks with
      | nil => simp [segsMatchAux, litSegs]
      | cons k ks1 => simp [segsMatchAux, litSegs]
    | cons p ps1 =>
      cases p with
      | lit s =>
        cases ks with
        | nil => simp [segsMatchAux, litSegs]
        | cons k ks1 =>
          have hl1 : litOnly ps1 = true := by simpa [litOnly] using hl
          have hf1 : ps1.length + ks1.length < n := by
            simp only [List.length_cons] at hf; omega
          simp [segsMatchAux, litSegs, ih ps1 ks1 hl1 hf1]
      | star => simp [litOnly] at hl
      | hash => simp [litOnly] at hl

/-- C8: `RoutingKeyMatcher.matches` on a wildcard-free (literal-only)
pattern returns true iff the pattern equals the key exactly,
segment-for-segment after splitting the key on `'.'`. -/
theorem rk_literal_only_exact (pat : List PatSeg) (key : List Nat)
    (h : litOnly pat = true) :
    rkMatches pat key = true ↔ litSegs pat = splitOnDot key := by
  unfold rkMatches segsMatch
  exact segsMatchAux_litOnly _ pat (splitOnDot key) h (by omega)

/-- C8 witness: the literal pattern `user.created` matches exactly the
key `"user.created"`. -/
theorem rk_literal_only_exact_witness :
    rkMatches [PatSeg.lit (strOf "user"), PatSeg.lit (strOf "created")]
      (strOf "user.created") = true := by
  rw [rk_literal_only_exact
    [PatSeg.lit (strOf "user"), PatSeg.lit (strOf "created")]
    (strOf "user.created") (by decide)]
  decide

/-- C9: `close()` on the consumer and on either producer never raises to
the caller — whatever the object's prior connection state and whatever
the underlying teardown calls do, the blanket `except Exception` catches
and only logs — so calling it repeatedly is safe. -/
theorem close_never_raises :
    (∀ (s : ConnState) (o : TeardownOracle), (consumerClose s o).2 = none) ∧
    (∀ (s : ConnState) (o : TeardownOracle), (producerClose s o).2 = none) ∧
    (∀ (s : ConnState) (o o2 : TeardownOracle),
      (consumerClose (consumerClose s o).1 o2).2 = none ∧
        (producerClose (producerClose s o).1 o2).2 = none) :=
  ⟨fun _ _ => rfl, fun _ _ => rfl, fun _ _ _ => ⟨rfl, rfl⟩⟩

end RabbitClient
